import Mathlib

/-!
Shallow embedding of `custom_components/huggingchat_conversation/__init__.py`,
the single non-trivial method `HuggingChatAgent.async_process`, together with
the small helpers it uses (`_async_generate_prompt`, `initialize_chatbot`).

Modelling decisions:

* The external collaborators (the `hugchat` client library, the Home Assistant
  template engine, the cookie store) are not code of this repository.  Their
  behaviour is abstracted into an `Oracle` that fixes, per request, the outcome
  of every external call the method makes: whether the cookie-cache load
  succeeds, whether each of the two `ChatBot` constructions raises
  `ChatBotInitError`, the id reported by `get_conversation_info`, the outcome
  of template rendering (`TemplateError` or a rendered string), and the outcome
  of `chatbot.query` (`ChatError`, `ModelOverloadedError`, or a reply).
  External calls the source does not guard and whose failure no claim is about
  (`login`, `saveCookiesToDir`, `get_remote_conversations`,
  `get_conversation_from_id`, `change_conversation`) are modelled as succeeding.
* `self.history : dict[str, list[dict]]` becomes an association list
  `History` with Python-dict lookup/assignment semantics (`hlookup`/`hinsert`).
  The Python aliasing on the existing-conversation path
  (`messages = self.history[conversation_id]` followed by in-place
  `messages.append`) is made explicit: the user turn is written back into the
  history map at the point of the append, before the query is attempted.
* Every external call is also recorded in an event trace, so that claims about
  which calls happen (and in which order) are statements about the trace.
* `int(...)` applied to the configured chat-model option is modelled by
  `pyInt?` (sign and digits after stripping whitespace; numeric-literal
  underscores are not modelled).  A failing coercion is an uncaught Python
  `ValueError`, modelled by the `RunResult.panic` constructor, as is the
  unguarded `ChatBotInitError` of the second chatbot construction.
* Sampling parameters (temperature, top_p, max tokens) are floats/ints passed
  through verbatim to the external query call; they influence no control flow
  or claim and are left out of the model.  Likewise the configured defaults
  from `const.py`: `Config` holds the values *after* `options.get`.
-/

/-- Role tag of one transcript turn, the `"role"` key of the Python dict. -/
inductive Role where
  | system
  | user
  | assistant
deriving DecidableEq, Repr

/-- One transcript turn: the Python dict `{"role": ..., "content": ...}`. -/
structure Message where
  role : Role
  content : String
deriving DecidableEq, Repr

/-- The `self.history : dict[str, list[dict]]` map, as an association list. -/
abbrev History := List (String × List Message)

/-- Python dict lookup: `history[k]` as an `Option`. -/
def hlookup (h : History) (k : String) : Option (List Message) :=
  match h with
  | [] => none
  | (k₁, v) :: t => if k₁ = k then some v else hlookup t k

/-- Python dict assignment `history[k] = v`: replace the binding if the key is
present, otherwise add it. -/
def hinsert (h : History) (k : String) (v : List Message) : History :=
  match h with
  | [] => [(k, v)]
  | (k₁, v₁) :: t => if k₁ = k then (k, v) :: t else (k₁, v₁) :: hinsert t k v

/-- Whether an intent response was produced by `async_set_error` or by
`async_set_speech`. -/
inductive ResponseKind where
  | error
  | speech
deriving DecidableEq, Repr

/-- The fields of `intent.IntentResponse` the integration sets: the request
language, whether the response is an error, and the error or speech text. -/
structure IntentResponse where
  language : String
  kind : ResponseKind
  message : String
deriving DecidableEq, Repr

/-- The envelope `conversation.ConversationResult(response, conversation_id)`. -/
structure ConversationResult where
  response : IntentResponse
  conversationId : Option String
deriving DecidableEq, Repr

/-- The fields of `conversation.ConversationInput` the method reads. -/
structure ConversationInput where
  text : String
  conversationId : Option String
  language : String
deriving DecidableEq, Repr

/-- Per-request configuration after `options.get`: the raw chat-model option
(coerced with `int()` by the method) and the raw prompt template. -/
structure Config where
  chatModel : String
  rawPrompt : String
deriving DecidableEq, Repr

/-- Outcome of `chatbot.query(...)`: a reply, or one of the two exception
classes the source catches. -/
inductive QueryOutcome where
  | ok (reply : String)
  | chatError (msg : String)
  | overloaded (msg : String)
deriving DecidableEq, Repr

instance {ε α : Type} [DecidableEq ε] [DecidableEq α] :
    DecidableEq (Except ε α) := fun a b =>
  match a, b with
  | .ok x, .ok y =>
    if h : x = y then .isTrue (by rw [h])
    else .isFalse (fun hc => by cases hc; exact h rfl)
  | .ok _, .error _ => .isFalse (fun hc => by cases hc)
  | .error _, .ok _ => .isFalse (fun hc => by cases hc)
  | .error x, .error y =>
    if h : x = y then .isTrue (by rw [h])
    else .isFalse (fun hc => by cases hc; exact h rfl)

/-- Outcomes of the external calls made during one request, fixed up front.
`init1` is the first `ChatBot` construction (empty system prompt), `init2` the
re-construction with the rendered prompt on the new-conversation path; an
`Except.error` value is the `ChatBotInitError` message.  `infoId` is the id of
the conversation reported by `chatbot.get_conversation_info()`.
`renderOutcome` is the result of `Template(...).async_render`, with
`Except.error` the `TemplateError` message. -/
structure Oracle where
  cookiesLoadOk : Bool
  init1 : Except String Unit
  infoId : String
  renderOutcome : Except String String
  init2 : Except String Unit
  queryOutcome : QueryOutcome
deriving DecidableEq, Repr

/-- External calls made by `async_process`, in the order they are issued. -/
inductive Event where
  | loadCookies (ok : Bool)
  | login
  | saveCookies
  | initChatbot (systemPrompt : String)
  | refreshConversations
  | lookupConversation (id : String)
  | switchConversation (id : String)
  | fetchNewConversationInfo
  | renderPrompt (raw : String)
  | query (text : String)
deriving DecidableEq, Repr

/-- Result of one run of `async_process`: either a returned
`ConversationResult`, or an uncaught Python exception (`panic`).  Both carry
the final `self.history` and the trace of external calls. -/
inductive RunResult where
  | ok (res : ConversationResult) (st : History) (tr : List Event)
  | panic (exn : String) (st : History) (tr : List Event)
deriving DecidableEq, Repr

/-- Final `self.history` after the run. -/
def RunResult.state : RunResult → History
  | .ok _ st _ => st
  | .panic _ st _ => st

/-- Trace of external calls made during the run. -/
def RunResult.trace : RunResult → List Event
  | .ok _ _ tr => tr
  | .panic _ _ tr => tr

/-- Whether the run returned normally (no uncaught exception). -/
def RunResult.isOk : RunResult → Bool
  | .ok _ _ _ => true
  | .panic _ _ _ => false

/-- The returned `ConversationResult`, when the run returned normally. -/
def RunResult.result? : RunResult → Option ConversationResult
  | .ok res _ _ => some res
  | .panic _ _ _ => none

/-- Python `int(s)` on a string: strip surrounding whitespace, an optional
sign, then a non-empty digit string (numeric-literal underscore grouping is
not modelled).  Implemented over the character list so that it evaluates by
kernel reduction. -/
def pyInt? (s : String) : Option Int :=
  let cs := ((s.toList.dropWhile Char.isWhitespace).reverse.dropWhile
    Char.isWhitespace).reverse
  let neg : Bool := cs.head? == some '-'
  let ds := if neg || cs.head? == some '+' then cs.drop 1 else cs
  if !ds.isEmpty && ds.all Char.isDigit then
    let n : Nat := ds.foldl (fun acc c => acc * 10 + (c.toNat - 48)) 0
    some (if neg then -(n : Int) else (n : Int))
  else
    none

/-- Events of the cookie-acquisition step (lines 81-85 of the source): the
cache load, and on any exception the interactive login followed by the save. -/
def cookieEvents (o : Oracle) : List Event :=
  if o.cookiesLoadOk then
    [.loadCookies true]
  else
    [.loadCookies false, .login, .saveCookies]

/-- An `IntentResponse` built by `async_set_error(UNKNOWN, msg)`. -/
def errResponse (language msg : String) : IntentResponse :=
  { language := language, kind := .error, message := msg }

/-- An `IntentResponse` built by `async_set_speech(msg)`. -/
def speechResponse (language msg : String) : IntentResponse :=
  { language := language, kind := .speech, message := msg }

/-- Existing-conversation path (lines 105-112 then 139-172): refresh remote
conversations, resolve the remote conversation by `cid`, switch to it, append
the user turn in place (`messages` aliases `self.history[cid]`, so the stored
transcript is mutated before the query), then query and on success append the
assistant turn and store the transcript back. -/
def processExisting (st : History) (input : ConversationInput) (o : Oracle)
    (cid : String) (msgs : List Message) (tr : List Event) : RunResult :=
  let tr₁ := tr ++ [.refreshConversations, .lookupConversation cid,
    .switchConversation cid]
  let msgs₁ := msgs ++ [{ role := .user, content := input.text }]
  let st₁ := hinsert st cid msgs₁
  let tr₂ := tr₁ ++ [.query input.text]
  match o.queryOutcome with
  | .chatError m =>
    .ok { response := errResponse input.language
            ("Sorry, I had a problem talking to HuggingChat server: " ++ m),
          conversationId := some cid } st₁ tr₂
  | .overloaded m =>
    .ok { response := errResponse input.language
            ("Sorry, the HuggingChat model is overloaded: " ++ m),
          conversationId := some cid } st₁ tr₂
  | .ok reply =>
    .ok { response := speechResponse input.language reply,
          conversationId := some cid }
      (hinsert st₁ cid (msgs₁ ++ [{ role := .assistant, content := reply }]))
      tr₂

/-- New-conversation path (lines 113-137 then 139-172): fetch the fresh remote
conversation info to obtain its id, render the prompt template (a
`TemplateError` is caught and returned as an error result carrying that id),
re-construct the chatbot with the rendered prompt (a `ChatBotInitError` here is
NOT caught in the source and propagates), refresh and switch, seed the
transcript with the system turn, append the user turn (to a fresh local list,
not yet in the history), then query; only on success is the transcript stored
into the history under the remote id. -/
def processNew (cfg : Config) (st : History) (input : ConversationInput)
    (o : Oracle) (tr : List Event) : RunResult :=
  let cid := o.infoId
  let tr₁ := tr ++ [.fetchNewConversationInfo, .renderPrompt cfg.rawPrompt]
  match o.renderOutcome with
  | .error err =>
    .ok { response := errResponse input.language
            ("Sorry, I had a problem with my template: " ++ err),
          conversationId := some cid } st tr₁
  | .ok prompt =>
    let tr₂ := tr₁ ++ [.initChatbot prompt]
    match o.init2 with
    | .error err => .panic ("ChatBotInitError: " ++ err) st tr₂
    | .ok () =>
      let tr₃ := tr₂ ++ [.refreshConversations, .switchConversation cid,
        .query input.text]
      let msgs₁ : List Message :=
        [{ role := .system, content := prompt },
         { role := .user, content := input.text }]
      match o.queryOutcome with
      | .chatError m =>
        .ok { response := errResponse input.language
                ("Sorry, I had a problem talking to HuggingChat server: " ++ m),
              conversationId := some cid } st tr₃
      | .overloaded m =>
        .ok { response := errResponse input.language
                ("Sorry, the HuggingChat model is overloaded: " ++ m),
              conversationId := some cid } st tr₃
      | .ok reply =>
        .ok { response := speechResponse input.language reply,
              conversationId := some cid }
          (hinsert st cid
            (msgs₁ ++ [{ role := .assistant, content := reply }]))
          tr₃

/-- The method `HuggingChatAgent.async_process` (lines 64-172): coerce the
chat-model option with `int()` (an unparseable value raises an uncaught
`ValueError` before anything else happens), acquire cookies, construct the
chatbot with an empty system prompt (a `ChatBotInitError` is caught and
returned as an error result with the host-supplied conversation id), then
branch on whether the incoming conversation id is tracked in `self.history`. -/
def async_process (cfg : Config) (st : History) (input : ConversationInput)
    (o : Oracle) : RunResult :=
  match pyInt? cfg.chatModel with
  | none =>
    .panic ("ValueError: invalid literal for int() with base 10: "
      ++ cfg.chatModel) st []
  | some _model =>
    let tr := cookieEvents o ++ [.initChatbot ""]
    match o.init1 with
    | .error err =>
      .ok { response := errResponse input.language
              ("Sorry, an error occurred when init*ialising the chat: " ++ err),
            conversationId := input.conversationId } st tr
    | .ok () =>
      match input.conversationId with
      | some cid =>
        match hlookup st cid with
        | some msgs => processExisting st input o cid msgs tr
        | none => processNew cfg st input o tr
      | none => processNew cfg st input o tr

/-- Does a transcript start with a system turn and contain no other system
turn?  (The per-transcript invariant of the spec.) -/
def systemOnce (ms : List Message) : Bool :=
  match ms with
  | [] => false
  | m :: rest => m.role == .system && rest.all (fun x => !(x.role == .system))

/-- Does every transcript stored in the history satisfy `systemOnce`? -/
def historyGood (h : History) : Bool :=
  h.all (fun kv => systemOnce kv.2)

/-! Helper lemmas about the history map. -/

theorem hlookup_hinsert_self (h : History) (k : String) (v : List Message) :
    hlookup (hinsert h k v) k = some v := by
  induction h with
  | nil => simp [hinsert, hlookup]
  | cons kv t ih =>
    obtain ⟨k₁, v₁⟩ := kv
    by_cases hk : k₁ = k
    · simp [hinsert, hlookup, hk]
    · simp [hinsert, hlookup, hk, ih]

theorem hlookup_hinsert_ne (h : History) (k k₁ : String) (v : List Message)
    (hne : k₁ ≠ k) : hlookup (hinsert h k v) k₁ = hlookup h k₁ := by
  have hne₁ : ¬(k = k₁) := fun hc => hne hc.symm
  induction h with
  | nil => simp [hinsert, hlookup, hne₁]
  | cons kv t ih =>
    obtain ⟨k₂, v₂⟩ := kv
    simp only [hinsert]
    split_ifs with hk
    · subst hk
      simp [hlookup, hne₁]
    · simp [hlookup, ih]

theorem hinsert_hinsert (h : History) (k : String) (v w : List Message) :
    hinsert (hinsert h k v) k w = hinsert h k w := by
  induction h with
  | nil => simp [hinsert]
  | cons kv t ih =>
    obtain ⟨k₂, v₂⟩ := kv
    by_cases hk : k₂ = k <;> simp [hinsert, hk, ih]

theorem historyGood_lookup (h : History) (k : String) (ms : List Message)
    (hg : historyGood h = true) (hl : hlookup h k = some ms) :
    systemOnce ms = true := by
  induction h with
  | nil => simp [hlookup] at hl
  | cons kv t ih =>
    obtain ⟨k₂, v₂⟩ := kv
    rw [historyGood, List.all_cons, Bool.and_eq_true] at hg
    rw [hlookup] at hl
    split_ifs at hl with hk
    · cases hl
      exact hg.1
    · exact ih hg.2 hl

theorem historyGood_hinsert (h : History) (k : String) (v : List Message)
    (hg : historyGood h = true) (hv : systemOnce v = true) :
    historyGood (hinsert h k v) = true := by
  induction h with
  | nil => simp [hinsert, historyGood, hv]
  | cons kv t ih =>
    obtain ⟨k₂, v₂⟩ := kv
    rw [historyGood, List.all_cons, Bool.and_eq_true] at hg
    rw [hinsert]
    split_ifs with hk
    · rw [historyGood, List.all_cons, Bool.and_eq_true]
      exact ⟨hv, hg.2⟩
    · rw [historyGood, List.all_cons, Bool.and_eq_true]
      exact ⟨hg.1, ih hg.2⟩

/-! Helper lemmas about the two branches of the reconciler. -/

theorem processExisting_run (st : History) (input : ConversationInput)
    (o : Oracle) (cid : String) (msgs : List Message) (tr : List Event) :
    (processExisting st input o cid msgs tr).isOk = true
    ∧ ∀ res, (processExisting st input o cid msgs tr).result? = some res →
        res.conversationId = some cid := by
  cases hq : o.queryOutcome <;>
    simp [processExisting, hq, RunResult.isOk, RunResult.result?]

theorem processNew_run (cfg : Config) (st : History)
    (input : ConversationInput) (o : Oracle) (tr : List Event)
    (h2 : o.init2 = Except.ok ()) :
    (processNew cfg st input o tr).isOk = true
    ∧ ∀ res, (processNew cfg st input o tr).result? = some res →
        res.conversationId = some o.infoId := by
  cases hr : o.renderOutcome <;> cases hq : o.queryOutcome <;>
    simp [processNew, hr, h2, hq, RunResult.isOk, RunResult.result?]


/-! Concrete fixtures used by witnesses and counterexamples. -/

/-- A request opening a new conversation (no host-supplied id). -/
def inputNew : ConversationInput :=
  { text := "hello", conversationId := none, language := "en" }

/-- A request carrying a host-supplied id that is not tracked locally. -/
def inputHost : ConversationInput :=
  { text := "hello", conversationId := some "host-1", language := "en" }

/-- A request continuing the tracked conversation `"abc123"`. -/
def inputTracked : ConversationInput :=
  { text := "again", conversationId := some "abc123", language := "en" }

/-- A configuration whose chat-model option parses as an integer. -/
def cfg5 : Config := { chatModel := "5", rawPrompt := "tmpl" }

/-- An oracle on which every external call succeeds. -/
def oracleOk : Oracle :=
  { cookiesLoadOk := true, init1 := Except.ok (), infoId := "abc123",
    renderOutcome := Except.ok "P", init2 := Except.ok (),
    queryOutcome := .ok "hi there" }

/-- A history already tracking conversation `"abc123"`. -/
def stTracked : History :=
  [("abc123", [{ role := .system, content := "P" },
    { role := .user, content := "hello" },
    { role := .assistant, content := "hi there" }])]

/-! Claim theorems. -/

/-- C10: the configured chat-model option is coerced with `int()` before any
error handling is set up; for any configured value that is not parseable as an
integer, `async_process` raises an uncaught `ValueError` (no
`ConversationResult` is returned), no remote call is made (the trace is
empty), and the history map is unchanged. -/
theorem C10_unparseable_model_raises (cfg : Config) (st : History)
    (input : ConversationInput) (o : Oracle)
    (h : pyInt? cfg.chatModel = none) :
    async_process cfg st input o =
      .panic ("ValueError: invalid literal for int() with base 10: "
        ++ cfg.chatModel) st [] := by
  simp [async_process, h]

/-- Witness for C10 at the concrete configured value `"llama"`. -/
theorem C10_unparseable_model_raises_witness :
    pyInt? "llama" = none
    ∧ async_process { chatModel := "llama", rawPrompt := "p" } [] inputNew
        oracleOk =
      .panic ("ValueError: invalid literal for int() with base 10: "
        ++ "llama") [] [] :=
  ⟨by decide, C10_unparseable_model_raises _ _ _ _ (by decide)⟩

/-- C1 counterexample: the chatbot re-construction performed with the rendered
prompt for a new conversation (source lines 131-133) is not guarded by any
`try`; when it raises `ChatBotInitError`, `async_process` ends in an uncaught
exception instead of returning a `ConversationResult`, so not every
client-initialization failure is caught at its call site. -/
theorem C1_counterexample :
    (async_process cfg5 [] inputNew
      { oracleOk with init2 := Except.error "boom" }).isOk = false := by
  decide

/-- C1 (amended): provided the configured chat model parses as an integer and
the unguarded chatbot re-construction for a new conversation succeeds,
`async_process` never ends in an uncaught exception: every failure of the
initial client initialization (`ChatBotInitError`), of prompt template
rendering (`TemplateError`), and of query submission (`ChatError`,
`ModelOverloadedError`) is caught at its call site and returned as a
well-formed, possibly error-flagged `ConversationResult` paired with the
best-known conversation id: the host-supplied id (used when no remote id was
ever obtained) or the id obtained from the remote service. -/
theorem C1_no_unhandled_fault (cfg : Config) (st : History)
    (input : ConversationInput) (o : Oracle)
    (hm : (pyInt? cfg.chatModel).isSome = true)
    (h2 : o.init2 = Except.ok ()) :
    (async_process cfg st input o).isOk = true
    ∧ ∀ res, (async_process cfg st input o).result? = some res →
        res.conversationId = input.conversationId
        ∨ res.conversationId = some o.infoId := by
  obtain ⟨m, hm⟩ := Option.isSome_iff_exists.mp hm
  cases h1 : o.init1 with
  | error e =>
    simp [async_process, hm, h1, RunResult.isOk, RunResult.result?]
  | ok u =>
    cases u
    cases hcid : input.conversationId with
    | none =>
      have h := processNew_run cfg st input o
        (cookieEvents o ++ [.initChatbot ""]) h2
      simp only [async_process, hm, h1, hcid]
      exact ⟨h.1, fun res hres => Or.inr (h.2 res hres)⟩
    | some cid =>
      cases hl : hlookup st cid with
      | some msgs =>
        have h := processExisting_run st input o cid msgs
          (cookieEvents o ++ [.initChatbot ""])
        simp only [async_process, hm, h1, hcid, hl]
        exact ⟨h.1, fun res hres => Or.inl (h.2 res hres)⟩
      | none =>
        have h := processNew_run cfg st input o
          (cookieEvents o ++ [.initChatbot ""]) h2
        simp only [async_process, hm, h1, hcid, hl]
        exact ⟨h.1, fun res hres => Or.inr (h.2 res hres)⟩

/-- Witness for the amended C1: a run whose first chatbot construction fails
still returns a result. -/
theorem C1_no_unhandled_fault_witness :
    (pyInt? "5").isSome = true
    ∧ (async_process cfg5 [] inputNew
        { oracleOk with init1 := Except.error "down" }).isOk = true :=
  ⟨by decide, (C1_no_unhandled_fault _ _ _ _ (by decide) rfl).1⟩

/-- C2 counterexample: on a template-rendering failure for an untracked
conversation id, the returned conversation id is the freshly obtained remote
id `"abc123"`, not the host-supplied `"host-1"`: the conversation id in the
result is NOT unchanged from the input. -/
theorem C2_counterexample :
    ∃ res,
      (async_process cfg5 [] inputHost
          { oracleOk with renderOutcome := Except.error "bad" }).result?
        = some res
      ∧ res.response.kind = .error
      ∧ res.response.message = "Sorry, I had a problem with my template: bad"
      ∧ ¬(res.conversationId = inputHost.conversationId) := by
  refine ⟨⟨errResponse "en" ("Sorry, I had a problem with my template: " ++ "bad"), some "abc123"⟩, by decide, by decide, by decide, by decide⟩

/-- C2 (amended): when prompt template rendering raises, `async_process`
returns an error response carrying the rendering failure message; the
conversation id in the returned result is the id of the freshly created remote
conversation (`info.id`, obtained just before rendering), not the host-supplied
input id; the history map is unchanged. -/
theorem C2_template_error_result (cfg : Config) (st : History)
    (input : ConversationInput) (o : Oracle) (err : String)
    (hm : (pyInt? cfg.chatModel).isSome = true)
    (h1 : o.init1 = Except.ok ())
    (hnew : Option.bind input.conversationId (hlookup st) = none)
    (hr : o.renderOutcome = Except.error err) :
    async_process cfg st input o =
      .ok { response := errResponse input.language
              ("Sorry, I had a problem with my template: " ++ err),
            conversationId := some o.infoId } st
        (cookieEvents o ++ [.initChatbot "", .fetchNewConversationInfo,
          .renderPrompt cfg.rawPrompt]) := by
  obtain ⟨m, hm⟩ := Option.isSome_iff_exists.mp hm
  cases hcid : input.conversationId with
  | none => simp [async_process, hm, h1, hcid, processNew, hr]
  | some cid =>
    rw [hcid, Option.some_bind] at hnew
    simp [async_process, hm, h1, hcid, hnew, processNew, hr]

/-- Witness for the amended C2 at a concrete untracked request. -/
theorem C2_template_error_result_witness :
    (pyInt? "5").isSome = true
    ∧ Option.bind inputHost.conversationId (hlookup []) = none
    ∧ async_process cfg5 [] inputHost
        { oracleOk with renderOutcome := Except.error "bad" } =
      .ok { response := errResponse "en"
              ("Sorry, I had a problem with my template: " ++ "bad"),
            conversationId := some "abc123" } []
        (cookieEvents { oracleOk with renderOutcome := Except.error "bad" }
          ++ [.initChatbot "", .fetchNewConversationInfo,
            .renderPrompt "tmpl"]) :=
  ⟨by decide, by decide,
    C2_template_error_result _ _ _ _ "bad" (by decide) rfl (by decide) rfl⟩

/-- C3: for a request whose conversation id is not yet tracked, the
conversation id returned to the caller equals the id assigned by the remote
collaborator (`info.id` of the freshly created remote conversation) rather
than the host-supplied placeholder, and on success the transcript stored under
that id is exactly `[system(rendered prompt), user(input text),
assistant(reply)]`. -/
theorem C3_new_conversation (cfg : Config) (st : History)
    (input : ConversationInput) (o : Oracle) (p reply : String)
    (hm : (pyInt? cfg.chatModel).isSome = true)
    (h1 : o.init1 = Except.ok ())
    (hnew : Option.bind input.conversationId (hlookup st) = none)
    (hr : o.renderOutcome = Except.ok p)
    (h2 : o.init2 = Except.ok ())
    (hq : o.queryOutcome = .ok reply) :
    (async_process cfg st input o).result? =
      some { response := speechResponse input.language reply,
             conversationId := some o.infoId }
    ∧ hlookup (async_process cfg st input o).state o.infoId =
        some [{ role := .system, content := p },
          { role := .user, content := input.text },
          { role := .assistant, content := reply }] := by
  obtain ⟨m, hm⟩ := Option.isSome_iff_exists.mp hm
  cases hcid : input.conversationId with
  | none =>
    simp [async_process, hm, h1, hcid, processNew, hr, h2, hq,
      RunResult.result?, RunResult.state, hlookup_hinsert_self]
  | some cid =>
    rw [hcid, Option.some_bind] at hnew
    simp [async_process, hm, h1, hcid, hnew, processNew, hr, h2, hq,
      RunResult.result?, RunResult.state, hlookup_hinsert_self]

/-- Witness for C3 at a concrete untracked request. -/
theorem C3_new_conversation_witness :
    (pyInt? "5").isSome = true
    ∧ (async_process cfg5 [] inputNew oracleOk).result? =
        some { response := speechResponse "en" "hi there",
               conversationId := some "abc123" } :=
  ⟨by decide,
    (C3_new_conversation cfg5 [] inputNew oracleOk "P" "hi there"
      (by decide) rfl (by decide) rfl rfl rfl).1⟩

/-- C5: once a conversation id is tracked in the history map, a turn for that
id refreshes the remote conversations, resolves the remote conversation by
that very id and switches the client to it, and never fetches a fresh remote
conversation (the trace contains no `fetchNewConversationInfo` event, which is
the only way the reconciler obtains a newly created remote conversation). -/
theorem C5_reuse_remote_conversation (cfg : Config) (st : History)
    (input : ConversationInput) (o : Oracle) (cid : String)
    (msgs : List Message)
    (hm : (pyInt? cfg.chatModel).isSome = true)
    (h1 : o.init1 = Except.ok ())
    (hcid : input.conversationId = some cid)
    (hl : hlookup st cid = some msgs) :
    (async_process cfg st input o).trace =
      cookieEvents o ++ [.initChatbot "", .refreshConversations,
        .lookupConversation cid, .switchConversation cid, .query input.text]
    ∧ Event.fetchNewConversationInfo ∉ (async_process cfg st input o).trace := by
  obtain ⟨m, hm⟩ := Option.isSome_iff_exists.mp hm
  have htr : (async_process cfg st input o).trace =
      cookieEvents o ++ [.initChatbot "", .refreshConversations,
        .lookupConversation cid, .switchConversation cid,
        .query input.text] := by
    cases hq : o.queryOutcome <;>
      simp [async_process, hm, h1, hcid, hl, processExisting, hq,
        RunResult.trace]
  refine ⟨htr, ?_⟩
  rw [htr]
  cases hc : o.cookiesLoadOk <;> simp [cookieEvents, hc]

/-- Witness for C5 at a concrete tracked request. -/
theorem C5_reuse_remote_conversation_witness :
    (pyInt? "5").isSome = true
    ∧ hlookup stTracked "abc123" =
        some [{ role := .system, content := "P" },
          { role := .user, content := "hello" },
          { role := .assistant, content := "hi there" }]
    ∧ (async_process cfg5 stTracked inputTracked oracleOk).trace =
        cookieEvents oracleOk ++ [.initChatbot "", .refreshConversations,
          .lookupConversation "abc123", .switchConversation "abc123",
          .query "again"] :=
  ⟨by decide, by decide,
    (C5_reuse_remote_conversation cfg5 stTracked inputTracked oracleOk
      "abc123" _ (by decide) rfl rfl rfl).1⟩

/-- C6: a request carrying a tracked conversation id never re-renders the
prompt template (no `renderPrompt` event appears in the trace, hence no system
turn is re-seeded); on success the stored transcript for that id is the old
transcript with exactly one user turn and one assistant turn appended at the
end, and every other key of the history map is untouched. -/
theorem C6_existing_no_rerender (cfg : Config) (st : History)
    (input : ConversationInput) (o : Oracle) (cid : String)
    (msgs : List Message) (reply : String)
    (hm : (pyInt? cfg.chatModel).isSome = true)
    (h1 : o.init1 = Except.ok ())
    (hcid : input.conversationId = some cid)
    (hl : hlookup st cid = some msgs)
    (hq : o.queryOutcome = .ok reply) :
    (∀ raw, Event.renderPrompt raw ∉ (async_process cfg st input o).trace)
    ∧ hlookup (async_process cfg st input o).state cid =
        some (msgs ++ [{ role := .user, content := input.text },
          { role := .assistant, content := reply }])
    ∧ ∀ k, k ≠ cid →
        hlookup (async_process cfg st input o).state k = hlookup st k := by
  obtain ⟨m, hm⟩ := Option.isSome_iff_exists.mp hm
  have hrun : async_process cfg st input o =
      .ok { response := speechResponse input.language reply,
            conversationId := some cid }
        (hinsert (hinsert st cid
            (msgs ++ [{ role := .user, content := input.text }])) cid
          ((msgs ++ [{ role := .user, content := input.text }])
            ++ [{ role := .assistant, content := reply }]))
        (cookieEvents o ++ [.initChatbot "", .refreshConversations,
          .lookupConversation cid, .switchConversation cid,
          .query input.text]) := by
    simp [async_process, hm, h1, hcid, hl, processExisting, hq]
  refine ⟨?_, ?_, ?_⟩
  · intro raw
    rw [hrun]
    simp only [RunResult.trace]
    cases hc : o.cookiesLoadOk <;> simp [cookieEvents, hc]
  · rw [hrun]
    simp only [RunResult.state]
    rw [hinsert_hinsert, hlookup_hinsert_self, List.append_assoc]
    simp
  · intro k hk
    rw [hrun]
    simp only [RunResult.state]
    rw [hinsert_hinsert, hlookup_hinsert_ne st cid k _ hk]

/-- Witness for C6 at a concrete tracked request. -/
theorem C6_existing_no_rerender_witness :
    (pyInt? "5").isSome = true
    ∧ hlookup (async_process cfg5 stTracked inputTracked oracleOk).state
        "abc123" =
      some ([{ role := .system, content := "P" },
          { role := .user, content := "hello" },
          { role := .assistant, content := "hi there" }]
        ++ [{ role := .user, content := "again" },
          { role := .assistant, content := "hi there" }]) :=
  ⟨by decide,
    (C6_existing_no_rerender cfg5 stTracked inputTracked oracleOk "abc123" _
      "hi there" (by decide) rfl rfl rfl rfl).2.1⟩

/-- C7: when the remote query raises `ModelOverloadedError`, `async_process`
returns an error response naming the overload, no assistant turn is appended
anywhere, and for a new (untracked) conversation no transcript is stored at
all (the history map is unchanged); for a tracked conversation the stored
transcript gains only the user turn.  (The hypotheses on `renderOutcome` and
`init2` make the query reachable on the new-conversation path; they are
irrelevant on the tracked path.) -/
theorem C7_overload_error_result (cfg : Config) (st : History)
    (input : ConversationInput) (o : Oracle) (p em : String)
    (hm : (pyInt? cfg.chatModel).isSome = true)
    (h1 : o.init1 = Except.ok ())
    (hr : o.renderOutcome = Except.ok p)
    (h2 : o.init2 = Except.ok ())
    (hq : o.queryOutcome = .overloaded em) :
    (∀ res, (async_process cfg st input o).result? = some res →
        res.response = errResponse input.language
          ("Sorry, the HuggingChat model is overloaded: " ++ em))
    ∧ (Option.bind input.conversationId (hlookup st) = none →
        (async_process cfg st input o).state = st)
    ∧ (∀ cid msgs, input.conversationId = some cid →
        hlookup st cid = some msgs →
        (async_process cfg st input o).state =
          hinsert st cid
            (msgs ++ [{ role := .user, content := input.text }])) := by
  obtain ⟨m, hm⟩ := Option.isSome_iff_exists.mp hm
  cases hcid : input.conversationId with
  | none =>
    simp [async_process, hm, h1, hcid, processNew, hr, h2, hq,
      RunResult.result?, RunResult.state]
  | some cid =>
    cases hl : hlookup st cid with
    | some msgs =>
      simp [async_process, hm, h1, hcid, hl, processExisting, hq,
        RunResult.result?, RunResult.state]
      intro cid₁ msgs₁ hceq hleq
      subst hceq
      rw [hl] at hleq
      injection hleq with hv
      subst hv
      rfl
    | none =>
      simp [async_process, hm, h1, hcid, hl, processNew, hr, h2, hq,
        RunResult.result?, RunResult.state]
      intro cid₁ msgs₁ hceq hleq
      subst hceq
      rw [hl] at hleq
      exact Option.noConfusion hleq

/-- Witness for C7 at a concrete untracked request whose query is overloaded. -/
theorem C7_overload_error_result_witness :
    (pyInt? "5").isSome = true
    ∧ (Option.bind inputNew.conversationId (hlookup []) = none →
        (async_process cfg5 [] inputNew
          { oracleOk with queryOutcome := .overloaded "busy" }).state = []) :=
  ⟨by decide,
    (C7_overload_error_result cfg5 [] inputNew
      { oracleOk with queryOutcome := .overloaded "busy" } "P" "busy"
      (by decide) rfl rfl rfl rfl).2.1⟩

/-- C9: when the conversation id is already tracked and the remote query then
fails (`ChatError` or `ModelOverloadedError`), the stored transcript has
nevertheless been mutated: `messages` aliases the stored list, so the user
turn appended before the query stays in `self.history`, and after the error
result the stored transcript ends with a user turn with no matching assistant
turn. -/
theorem C9_aliasing_dangling_user_turn (cfg : Config) (st : History)
    (input : ConversationInput) (o : Oracle) (cid em : String)
    (msgs : List Message)
    (hm : (pyInt? cfg.chatModel).isSome = true)
    (h1 : o.init1 = Except.ok ())
    (hcid : input.conversationId = some cid)
    (hl : hlookup st cid = some msgs)
    (hq : o.queryOutcome = .chatError em ∨ o.queryOutcome = .overloaded em) :
    (∀ res, (async_process cfg st input o).result? = some res →
        res.response.kind = .error)
    ∧ hlookup (async_process cfg st input o).state cid =
        some (msgs ++ [{ role := .user, content := input.text }]) := by
  obtain ⟨m, hm⟩ := Option.isSome_iff_exists.mp hm
  cases hq with
  | inl hq =>
    simp [async_process, hm, h1, hcid, hl, processExisting, hq,
      RunResult.result?, RunResult.state, errResponse, hlookup_hinsert_self]
  | inr hq =>
    simp [async_process, hm, h1, hcid, hl, processExisting, hq,
      RunResult.result?, RunResult.state, errResponse, hlookup_hinsert_self]

/-- Witness for C9 at a concrete tracked request whose query fails. -/
theorem C9_aliasing_dangling_user_turn_witness :
    (pyInt? "5").isSome = true
    ∧ hlookup (async_process cfg5 stTracked inputTracked
        { oracleOk with queryOutcome := .chatError "down" }).state "abc123" =
      some ([{ role := .system, content := "P" },
          { role := .user, content := "hello" },
          { role := .assistant, content := "hi there" }]
        ++ [{ role := .user, content := "again" }]) :=
  ⟨by decide,
    (C9_aliasing_dangling_user_turn cfg5 stTracked inputTracked
      { oracleOk with queryOutcome := .chatError "down" } "abc123" "down" _
      (by decide) rfl rfl rfl (Or.inl rfl)).2⟩

/-- After the cookie-acquisition step, no further `login` or `saveCookies`
event is ever issued: the whole trace is `cookieEvents o` followed by a rest
free of both. -/
theorem trace_shape (cfg : Config) (st : History) (input : ConversationInput)
    (o : Oracle) (m : Int) (hm : pyInt? cfg.chatModel = some m) :
    ∃ rest, (async_process cfg st input o).trace = cookieEvents o ++ rest
      ∧ Event.login ∉ rest ∧ Event.saveCookies ∉ rest := by
  cases h1 : o.init1 with
  | error e =>
    refine ⟨[.initChatbot ""], ?_, by simp, by simp⟩
    simp [async_process, hm, h1, RunResult.trace]
  | ok u =>
    cases u
    have hnewCase : ∀ tr₀, tr₀ = cookieEvents o ++ [Event.initChatbot ""] →
        ∃ rest, (processNew cfg st input o tr₀).trace = cookieEvents o ++ rest
          ∧ Event.login ∉ rest ∧ Event.saveCookies ∉ rest := by
      intro tr₀ htr₀
      subst htr₀
      cases hr : o.renderOutcome with
      | error e =>
        refine ⟨[.initChatbot "", .fetchNewConversationInfo,
          .renderPrompt cfg.rawPrompt], ?_, by simp, by simp⟩
        simp [processNew, hr, RunResult.trace]
      | ok p =>
        cases h2 : o.init2 with
        | error e =>
          refine ⟨[.initChatbot "", .fetchNewConversationInfo,
            .renderPrompt cfg.rawPrompt, .initChatbot p], ?_, by simp,
            by simp⟩
          simp [processNew, hr, h2, RunResult.trace]
        | ok u₂ =>
          cases u₂
          refine ⟨[.initChatbot "", .fetchNewConversationInfo,
            .renderPrompt cfg.rawPrompt, .initChatbot p,
            .refreshConversations, .switchConversation o.infoId,
            .query input.text], ?_, by simp, by simp⟩
          cases hq : o.queryOutcome <;>
            simp [processNew, hr, h2, hq, RunResult.trace]
    cases hcid : input.conversationId with
    | none =>
      have h := hnewCase (cookieEvents o ++ [Event.initChatbot ""]) rfl
      simpa [async_process, hm, h1, hcid] using h
    | some cid =>
      cases hl : hlookup st cid with
      | some msgs =>
        refine ⟨[.initChatbot "", .refreshConversations,
          .lookupConversation cid, .switchConversation cid,
          .query input.text], ?_, by simp, by simp⟩
        cases hq : o.queryOutcome <;>
          simp [async_process, hm, h1, hcid, hl, processExisting, hq,
            RunResult.trace]
      | none =>
        have h := hnewCase (cookieEvents o ++ [Event.initChatbot ""]) rfl
        simpa [async_process, hm, h1, hcid, hl] using h

/-- C8: on a login-cache miss the interactive login is invoked exactly once
and the resulting cookie bundle is saved before any chatbot construction or
query (the trace starts `loadCookies, login, saveCookies` and neither `login`
nor `saveCookies` occurs again); when the cache load succeeds, interactive
login is never invoked. -/
theorem C8_login_once_and_cached (cfg : Config) (st : History)
    (input : ConversationInput) (o : Oracle)
    (hm : (pyInt? cfg.chatModel).isSome = true) :
    (o.cookiesLoadOk = false →
      ∃ rest, (async_process cfg st input o).trace =
          [.loadCookies false, .login, .saveCookies] ++ rest
        ∧ Event.login ∉ rest ∧ Event.saveCookies ∉ rest)
    ∧ (o.cookiesLoadOk = true →
        Event.login ∉ (async_process cfg st input o).trace) := by
  obtain ⟨m, hm⟩ := Option.isSome_iff_exists.mp hm
  obtain ⟨rest, htr, hlog, hsave⟩ := trace_shape cfg st input o m hm
  constructor
  · intro hc
    refine ⟨rest, ?_, hlog, hsave⟩
    rw [htr]
    simp [cookieEvents, hc]
  · intro hc
    rw [htr]
    simp [cookieEvents, hc, hlog]

/-- Witness for C8 at a concrete request with a cookie-cache miss. -/
theorem C8_login_once_and_cached_witness :
    (pyInt? "5").isSome = true
    ∧ (({ oracleOk with cookiesLoadOk := false } : Oracle).cookiesLoadOk
          = false →
        ∃ rest, (async_process cfg5 [] inputNew
            { oracleOk with cookiesLoadOk := false }).trace =
            [.loadCookies false, .login, .saveCookies] ++ rest
          ∧ Event.login ∉ rest ∧ Event.saveCookies ∉ rest) :=
  ⟨by decide,
    (C8_login_once_and_cached cfg5 [] inputNew
      { oracleOk with cookiesLoadOk := false } (by decide)).1⟩

/-- Appending non-system turns to a transcript that starts with its single
system turn preserves that shape. -/
theorem systemOnce_append (ms extra : List Message)
    (hms : systemOnce ms = true)
    (hex : extra.all (fun m => !(m.role == .system)) = true) :
    systemOnce (ms ++ extra) = true := by
  cases ms with
  | nil => simp [systemOnce] at hms
  | cons m rest =>
    simp only [systemOnce, List.cons_append, List.all_append,
      Bool.and_eq_true] at hms ⊢
    exact ⟨hms.1, hms.2, hex⟩

/-- One reconciler step from history `st` to history `st₁` is sound: the
per-transcript system-turn invariant still holds, and every previously stored
transcript is only ever extended at its end (chronological order preserved). -/
def stepOk (st st₁ : History) : Prop :=
  historyGood st₁ = true
  ∧ ∀ k ms, hlookup st k = some ms →
      ∃ tail, hlookup st₁ k = some (ms ++ tail)

theorem stepOk_refl (st : History) (hg : historyGood st = true) :
    stepOk st st :=
  ⟨hg, fun _k ms hk => ⟨[], by rw [List.append_nil]; exact hk⟩⟩

theorem stepOk_append (st : History) (cid : String) (msgs extra : List Message)
    (hg : historyGood st = true) (hl : hlookup st cid = some msgs)
    (hex : extra.all (fun m => !(m.role == .system)) = true) :
    stepOk st (hinsert st cid (msgs ++ extra)) := by
  constructor
  · exact historyGood_hinsert st cid _ hg
      (systemOnce_append msgs extra (historyGood_lookup st cid msgs hg hl) hex)
  · intro k ms hk
    by_cases hkc : k = cid
    · subst hkc
      rw [hl] at hk
      injection hk with hv
      subst hv
      exact ⟨extra, hlookup_hinsert_self _ _ _⟩
    · exact ⟨[], by
        rw [hlookup_hinsert_ne st cid k _ hkc, List.append_nil]; exact hk⟩

theorem stepOk_insert_fresh (st : History) (cid : String) (v : List Message)
    (hg : historyGood st = true) (hl : hlookup st cid = none)
    (hv : systemOnce v = true) : stepOk st (hinsert st cid v) := by
  constructor
  · exact historyGood_hinsert st cid v hg hv
  · intro k ms hk
    by_cases hkc : k = cid
    · subst hkc
      rw [hl] at hk
      exact Option.noConfusion hk
    · exact ⟨[], by
        rw [hlookup_hinsert_ne st cid k v hkc, List.append_nil]; exact hk⟩

theorem stepOk_processNew (cfg : Config) (st : History)
    (input : ConversationInput) (o : Oracle) (tr : List Event)
    (hg : historyGood st = true)
    (hfree : hlookup st o.infoId = none) :
    stepOk st (processNew cfg st input o tr).state := by
  cases hr : o.renderOutcome with
  | error e =>
    simp only [processNew, hr, RunResult.state]
    exact stepOk_refl st hg
  | ok p =>
    cases h2 : o.init2 with
    | error e =>
      simp only [processNew, hr, h2, RunResult.state]
      exact stepOk_refl st hg
    | ok u =>
      cases u
      cases hq : o.queryOutcome with
      | ok reply =>
        simp only [processNew, hr, h2, hq, RunResult.state]
        exact stepOk_insert_fresh st o.infoId _ hg hfree (by simp [systemOnce])
      | chatError m =>
        simp only [processNew, hr, h2, hq, RunResult.state]
        exact stepOk_refl st hg
      | overloaded m =>
        simp only [processNew, hr, h2, hq, RunResult.state]
        exact stepOk_refl st hg

theorem stepOk_processExisting (st : History) (input : ConversationInput)
    (o : Oracle) (cid : String) (msgs : List Message) (tr : List Event)
    (hg : historyGood st = true) (hl : hlookup st cid = some msgs) :
    stepOk st (processExisting st input o cid msgs tr).state := by
  cases hq : o.queryOutcome with
  | ok reply =>
    have hstate : (processExisting st input o cid msgs tr).state =
        hinsert st cid (msgs ++ [{ role := .user, content := input.text },
          { role := .assistant, content := reply }]) := by
      simp [processExisting, hq, RunResult.state, hinsert_hinsert]
    rw [hstate]
    exact stepOk_append st cid msgs _ hg hl (by simp)
  | chatError m =>
    simp only [processExisting, hq, RunResult.state]
    exact stepOk_append st cid msgs _ hg hl (by simp)
  | overloaded m =>
    simp only [processExisting, hq, RunResult.state]
    exact stepOk_append st cid msgs _ hg hl (by simp)

/-- C4: across any single processed turn (hence, inductively, any sequence of
turns), every stored transcript is only ever extended at its end — turn order
equals chronological submission order — and every stored transcript keeps
starting with exactly one system turn (seeded only at creation; no later
system turn is ever added).  The freshness hypothesis states the environment
guarantee that a newly created remote conversation's id is not already a key
of the history. -/
theorem C4_transcript_invariant (cfg : Config) (st : History)
    (input : ConversationInput) (o : Oracle)
    (hg : historyGood st = true)
    (hfresh : Option.bind input.conversationId (hlookup st) = none →
      hlookup st o.infoId = none) :
    historyGood (async_process cfg st input o).state = true
    ∧ ∀ k ms, hlookup st k = some ms →
        ∃ tail, hlookup (async_process cfg st input o).state k =
          some (ms ++ tail) := by
  have hstep : stepOk st (async_process cfg st input o).state := by
    cases hpm : pyInt? cfg.chatModel with
    | none =>
      simp only [async_process, hpm, RunResult.state]
      exact stepOk_refl st hg
    | some m =>
      cases h1 : o.init1 with
      | error e =>
        simp only [async_process, hpm, h1, RunResult.state]
        exact stepOk_refl st hg
      | ok u =>
        cases u
        cases hcid : input.conversationId with
        | none =>
          simp only [async_process, hpm, h1, hcid]
          exact stepOk_processNew cfg st input o _ hg (hfresh (by simp [hcid]))
        | some cid =>
          cases hl : hlookup st cid with
          | some msgs =>
            simp only [async_process, hpm, h1, hcid, hl]
            exact stepOk_processExisting st input o cid msgs _ hg hl
          | none =>
            simp only [async_process, hpm, h1, hcid, hl]
            exact stepOk_processNew cfg st input o _ hg
              (hfresh (by rw [hcid, Option.some_bind, hl]))
  exact ⟨hstep.1, hstep.2⟩

/-- Witness for C4 at a concrete tracked request over a well-formed history. -/
theorem C4_transcript_invariant_witness :
    historyGood stTracked = true
    ∧ historyGood (async_process cfg5 stTracked inputTracked oracleOk).state
        = true :=
  ⟨by decide,
    (C4_transcript_invariant cfg5 stTracked inputTracked oracleOk (by decide)
      (by decide)).1⟩
